import Mathlib

/-!
Shallow embedding of the trajectory-derived analytics core of the
ocen-proto dashboard:

* `generateMockDriftData` (mock oceanographic data module): walks the
  trajectory pairwise and produces one drift record per consecutive pair
  (speed, bearing, cumulative distance, displacement from the start point),
  using the Haversine great-circle formula on a sphere of radius 6371 km.
* the profile-grouping logic of `ProfileOverlayChart`: filter points with
  valid temperature and depth, cut the filtered sequence into consecutive
  windows of five, drop windows with fewer than two points, sort each
  surviving window ascending by depth.
* `generateMockPositioningData`: a sibling generator that draws values from
  `Math.random()`; it is embedded with an explicit random stream to contrast
  with the randomness-free drift builder.

JavaScript numbers are modelled as real numbers; timestamps are modelled as
the epoch-millisecond value produced by `new Date(s).getTime()`.
`Math.atan2 (y, x)` is modelled as the argument of the complex number
`x + y * I` (principal value in `(-pi, pi]`, zero at the origin, matching
the JavaScript function on non-NaN input), and the JavaScript remainder
operator `%` as `jsMod` (truncated division remainder).
-/

namespace OcenProto

open Real

/-- Embedding of `Math.atan2(y, x)`: the angle of the point `(x, y)`,
taken in `(-pi, pi]`, with `atan2 0 0 = 0` as in JavaScript. -/
noncomputable def atan2 (y xc : ℝ) : ℝ := Complex.arg ⟨xc, y⟩

/-- Truncation toward zero, as JavaScript coerces in its remainder
operator: floor for non-negative arguments, ceiling for negative ones. -/
noncomputable def jsTrunc (v : ℝ) : ℤ := if 0 ≤ v then ⌊v⌋ else ⌈v⌉

/-- Embedding of the JavaScript remainder operator `v % m` on numbers:
`v - m * trunc (v / m)`. -/
noncomputable def jsMod (v m : ℝ) : ℝ := v - m * (jsTrunc (v / m) : ℝ)

/-- The intermediate value `a` of the Haversine computation in
`generateMockDriftData`:
`sin(dLat/2)^2 + cos(lat1) * cos(lat2) * sin(dLon/2)^2`, with latitudes
and longitudes converted from degrees to radians exactly as in the source
(`(deg * Math.PI) / 180`). -/
noncomputable def haversineA (lat1 lon1 lat2 lon2 : ℝ) : ℝ :=
  let phi1 := lat1 * π / 180
  let phi2 := lat2 * π / 180
  let deltaLat := (lat2 - lat1) * π / 180
  let deltaLon := (lon2 - lon1) * π / 180
  Real.sin (deltaLat / 2) * Real.sin (deltaLat / 2) +
    Real.cos phi1 * Real.cos phi2 *
      Real.sin (deltaLon / 2) * Real.sin (deltaLon / 2)

/-- The Haversine great-circle distance of `generateMockDriftData`
(also inlined there for the cumulative distance and the displacement):
`c = 2 * atan2(sqrt a, sqrt (1 - a)); distance = 6371 * c`. -/
noncomputable def haversineDistance (lat1 lon1 lat2 lon2 : ℝ) : ℝ :=
  let a := haversineA lat1 lon1 lat2 lon2
  let c := 2 * atan2 (Real.sqrt a) (Real.sqrt (1 - a))
  6371 * c

/-- The bearing computation of `generateMockDriftData`:
`y = sin(dLon) * cos(lat2)`,
`x = cos(lat1) * sin(lat2) - sin(lat1) * cos(lat2) * cos(dLon)`,
`direction = (atan2(y, x) * 180 / PI + 360) % 360`. -/
noncomputable def bearing (lat1 lon1 lat2 lon2 : ℝ) : ℝ :=
  let phi1 := lat1 * π / 180
  let phi2 := lat2 * π / 180
  let deltaLon := (lon2 - lon1) * π / 180
  let y := Real.sin deltaLon * Real.cos phi2
  let xc := Real.cos phi1 * Real.sin phi2 -
    Real.sin phi1 * Real.cos phi2 * Real.cos deltaLon
  jsMod (atan2 y xc * 180 / π + 360) 360

/-- Display label of a trajectory point (exported `TrajectoryPoint`
interface of the trajectory mock-data module); irrelevant to the math. -/
inductive PointStatus
  | active
  | completed
  | current
deriving DecidableEq

/-- One observed float fix.  Union of the exported `TrajectoryPoint`
interface (id, latitude, longitude, timestamp, optional depth /
temperature / salinity, status) and the minimal local `TrajectoryPoint`
interface of the mock generators module (latitude, longitude, timestamp).
`timestamp` is the numeric instant `new Date(s).getTime()` in
milliseconds. -/
structure TrajectoryPoint where
  id : ℝ
  latitude : ℝ
  longitude : ℝ
  timestamp : ℝ
  depth : Option ℝ
  temperature : Option ℝ
  salinity : Option ℝ
  status : PointStatus

instance : Inhabited TrajectoryPoint :=
  ⟨⟨0, 0, 0, 0, none, none, none, PointStatus.active⟩⟩

/-- Derived drift record, one per point after the first
(`DriftData` interface). -/
structure DriftData where
  timestamp : ℝ
  speed : ℝ
  direction : ℝ
  latitude : ℝ
  longitude : ℝ
  distance : ℝ
  displacement : ℝ

instance : Inhabited DriftData := ⟨⟨0, 0, 0, 0, 0, 0, 0⟩⟩

/-- The inner `reduce` of `generateMockDriftData` over the prefix
`trajectoryPoints.slice(0, index + 2)`: starting from `0`, the callback
returns `0` at position `0` and otherwise adds the Haversine distance
between the previous point of the prefix and the current one. -/
noncomputable def cumulativeDistance (prefixPts : List TrajectoryPoint) : ℝ :=
  prefixPts.enum.foldl
    (fun total ip =>
      if ip.1 = 0 then 0
      else
        total +
          haversineDistance (prefixPts.getD (ip.1 - 1) default).latitude
            (prefixPts.getD (ip.1 - 1) default).longitude ip.2.latitude
            ip.2.longitude)
    0

/-- Body of the `map` in `generateMockDriftData` for one record:
`startPoint` is `trajectoryPoints[0]`, `prevPoint` is
`trajectoryPoints[index]`, `point` is `trajectoryPoints[index + 1]`, and
`cumulativeDist` is the reduced prefix sum passed in separately. -/
noncomputable def mkDriftRecord (startPoint prevPoint point : TrajectoryPoint)
    (cumulativeDist : ℝ) : DriftData :=
  let distance := haversineDistance prevPoint.latitude prevPoint.longitude
    point.latitude point.longitude
  let timeDiff := (point.timestamp - prevPoint.timestamp) / (1000 * 60 * 60)
  let speed := if 0 < timeDiff then distance / timeDiff else 0
  let direction := bearing prevPoint.latitude prevPoint.longitude
    point.latitude point.longitude
  let displacement := haversineDistance startPoint.latitude
    startPoint.longitude point.latitude point.longitude
  { timestamp := point.timestamp
    speed := max 0 (min speed 10)
    direction := direction
    latitude := point.latitude
    longitude := point.longitude
    distance := cumulativeDist
    displacement := displacement }

/-- Embedding of `generateMockDriftData`: `trajectoryPoints.slice(1).map`
is rendered as a map over the indices `0 .. n - 2`; `pts.getD index`
is `trajectoryPoints[index]` (always in bounds in the source map). -/
noncomputable def generateMockDriftData
    (trajectoryPoints : List TrajectoryPoint) : List DriftData :=
  match trajectoryPoints with
  | [] => []
  | p0 :: _ =>
    (List.range (trajectoryPoints.length - 1)).map fun index =>
      mkDriftRecord p0 (trajectoryPoints.getD index p0)
        (trajectoryPoints.getD (index + 1) p0)
        (cumulativeDistance (trajectoryPoints.take (index + 2)))

/-- Validity filter of `ProfileOverlayChart`:
`point.temperature != null && point.depth != null`. -/
def isValidProfilePoint (p : TrajectoryPoint) : Bool :=
  p.temperature.isSome && p.depth.isSome

/-- Numeric sort key of the depth comparator `(a.depth || 0) - (b.depth || 0)`
of `ProfileOverlayChart` (an absent depth is coerced to `0`; a present
depth of `0` is falsy in JavaScript but `0 || 0` is `0` as well). -/
def depthKey (p : TrajectoryPoint) : ℝ := p.depth.getD 0

/-- Boolean comparison induced by the ascending numeric comparator. -/
noncomputable def depthLE (a b : TrajectoryPoint) : Bool :=
  decide (depthKey a ≤ depthKey b)

/-- Embedding of `profile.sort((a, b) => (a.depth || 0) - (b.depth || 0))`:
a stable sort of the window ascending by depth key (ECMAScript sorts are
stable). -/
noncomputable def sortByDepth (profile : List TrajectoryPoint) :
    List TrajectoryPoint :=
  profile.mergeSort depthLE

/-- Window size `profileSize = 5` of `ProfileOverlayChart`. -/
def profileSize : ℕ := 5

/-- The windowing loop of `ProfileOverlayChart` over the filtered points:
`for (i = 0; i < validPoints.length; i += profileSize)` takes the slice
`validPoints.slice(i, i + profileSize)` and pushes its depth-sorted form
when it has more than one element.  Rendered as a recursion that peels
`profileSize` points per iteration. -/
noncomputable def groupProfiles (validPoints : List TrajectoryPoint) :
    List (List TrajectoryPoint) :=
  match validPoints with
  | [] => []
  | p :: rest =>
    let profile := (p :: rest).take profileSize
    let remaining := (p :: rest).drop profileSize
    if 1 < profile.length then sortByDepth profile :: groupProfiles remaining
    else groupProfiles remaining
termination_by validPoints.length
decreasing_by
  all_goals
    simp [List.length_drop, profileSize]
    omega

/-- The full grouping stage of `ProfileOverlayChart`: filter out points
missing temperature or depth, then window and sort. -/
noncomputable def profileGroups (points : List TrajectoryPoint) :
    List (List TrajectoryPoint) :=
  groupProfiles (points.filter isValidProfilePoint)

/-- GPS fix type of the `PositioningData` interface. -/
inductive FixType
  | GPS
  | DGPS
  | RTK
  | Estimated
deriving DecidableEq

/-- The `PositioningData` interface.  `satelliteCount` is the value
`Math.floor(r * 8) + 4`, an integer. -/
structure PositioningData where
  timestamp : ℝ
  latitude : ℝ
  longitude : ℝ
  horizontalAccuracy : ℝ
  verticalAccuracy : Option ℝ
  satelliteCount : ℤ
  hdop : ℝ
  fixType : FixType
  signalStrength : ℝ

/-- Embedding of `generateMockPositioningData`, which draws six
`Math.random()` values per point (in source order of the object literal).
The random source is made explicit as a stream `rand : ℕ → ℝ` of the
successive `Math.random()` results; the record for point `i` consumes
stream positions `6 * i` through `6 * i + 5`.  The `fixType` lookup
indexes the four-element array with `Math.floor(r * 4)`; out-of-range
indices (impossible for `r` in `[0, 1)`) fall back to the first entry. -/
noncomputable def generateMockPositioningData (rand : ℕ → ℝ)
    (trajectoryPoints : List TrajectoryPoint) : List PositioningData :=
  trajectoryPoints.enum.map fun ip =>
    let i := ip.1
    let point := ip.2
    { timestamp := point.timestamp
      latitude := point.latitude
      longitude := point.longitude
      horizontalAccuracy := rand (6 * i) * 50 + 5
      verticalAccuracy := some (rand (6 * i + 1) * 20 + 5)
      satelliteCount := ⌊rand (6 * i + 2) * 8⌋ + 4
      hdop := rand (6 * i + 3) * 3 + 0.5
      fixType := [FixType.GPS, FixType.DGPS, FixType.RTK,
        FixType.Estimated].getD (⌊rand (6 * i + 4) * 4⌋).toNat FixType.GPS
      signalStrength := rand (6 * i + 5) * 20 + 30 }

/-- Variant of the drift builder threaded with the same random stream
interface: the body of `generateMockDriftData` contains no call to
`Math.random()`, so its embedding does not consume the stream. -/
noncomputable def generateMockDriftDataR (rand : ℕ → ℝ)
    (trajectoryPoints : List TrajectoryPoint) : List DriftData :=
  generateMockDriftData trajectoryPoints

/-! ### Array-store model for the mutation claims

JavaScript arrays are heap objects.  To state that the computations never
mutate their input array, arrays are modelled by indices into an explicit
store (a list of array contents); `filter` and `slice` allocate fresh
arrays, while `Array.prototype.sort` writes its receiver's cell in
place. -/

/-- Store of array objects, addressed by allocation index. -/
abbrev Store := List (List TrajectoryPoint)

/-- Read the contents of array `r` from the store. -/
def readArr (h : Store) (r : ℕ) : List TrajectoryPoint := h.getD r []

/-- Allocate a fresh array holding `contents`; returns the new store and
the new array's address. -/
def allocArr (h : Store) (contents : List TrajectoryPoint) : Store × ℕ :=
  (h ++ [contents], h.length)

/-- Overwrite the contents of array `r` in place. -/
def writeArr (h : Store) (r : ℕ) (contents : List TrajectoryPoint) : Store :=
  h.set r contents

/-- One iteration of the `ProfileOverlayChart` windowing loop in the
store model: `validPoints.slice(i, i + profileSize)` allocates a fresh
array; if it has more than one element, `profile.sort(...)` overwrites
that fresh array with its sorted contents and its address is pushed onto
the profile list. -/
noncomputable def profileOverlayStep (validRef : ℕ) (acc : Store × List ℕ)
    (i : ℕ) : Store × List ℕ :=
  let profile := ((readArr acc.1 validRef).drop i).take profileSize
  let alloc := allocArr acc.1 profile
  if 1 < profile.length then
    (writeArr alloc.1 alloc.2 (sortByDepth (readArr alloc.1 alloc.2)),
      acc.2 ++ [alloc.2])
  else (alloc.1, acc.2)

/-- The grouping effect of `ProfileOverlayChart` on the store: filter the
input trajectory array (allocating the fresh `validPoints` array), then
run the windowing loop, whose iteration count
`ceil(validPoints.length / profileSize)` and start indices
`0, 5, 10, ...` are those of `for (i = 0; i < validPoints.length;
i += profileSize)`.  Returns the final store and the addresses of the
pushed profile arrays. -/
noncomputable def profileOverlayEffect (h0 : Store) (trajRef : ℕ) :
    Store × List ℕ :=
  let validPts := (readArr h0 trajRef).filter isValidProfilePoint
  let alloc := allocArr h0 validPts
  let starts := List.range' 0
    ((validPts.length + profileSize - 1) / profileSize) profileSize
  starts.foldl (profileOverlayStep alloc.2) (alloc.1, [])

/-- The effect of `generateMockDriftData` on the store: its body uses only
`slice`, `map` and `reduce`, all of which allocate fresh arrays and never
assign into the input, so the store is unchanged and the result is the
pure drift series of the input array's contents. -/
noncomputable def generateMockDriftDataEffect (h0 : Store) (trajRef : ℕ) :
    Store × List DriftData :=
  (h0, generateMockDriftData (readArr h0 trajRef))

/-- Distance between the points at positions `j` and `j + 1` of a list. -/
noncomputable def pairDistance (pts : List TrajectoryPoint) (j : ℕ) : ℝ :=
  haversineDistance (pts.getD j default).latitude
    (pts.getD j default).longitude (pts.getD (j + 1) default).latitude
    (pts.getD (j + 1) default).longitude

/-- First point of the worked example scenario: the equator at the prime
meridian, timestamp `t = 0`. -/
def pointA : TrajectoryPoint :=
  ⟨0, 0, 0, 0, none, none, none, PointStatus.active⟩

/-- Second point of the worked example scenario: the equator one degree
east, timestamp one hour (3600000 ms) later. -/
def pointB : TrajectoryPoint :=
  ⟨1, 0, 1, 3600000, none, none, none, PointStatus.active⟩

/-- Sample fix number `k` of a 12-point test trajectory: depth `12 - k`
metres and temperature `4` degrees are both present. -/
def samplePoint (k : ℕ) : TrajectoryPoint :=
  ⟨k, 0, 0, k, some ((12 : ℝ) - k), some 4, none, PointStatus.active⟩

/-- A 12-point trajectory whose points all carry valid depth and
temperature. -/
def sampleTrajectory : List TrajectoryPoint :=
  (List.range 12).map samplePoint

/-! ### Spherical geometry of the Haversine formula

The quantity `a` computed by the source is `(1 - d) / 2` where `d` is the
Euclidean inner product of the two unit vectors determined by the
latitude/longitude pairs, and `6371 * 2 * atan2(sqrt a, sqrt (1 - a))`
equals `6371 * arccos d`: the distance is the sphere radius times the
central angle.  From that form non-negativity, symmetry and the triangle
inequality follow. -/

/-- Inner product of the unit vectors of two latitude/longitude pairs
given in radians. -/
noncomputable def sphereDot (phi1 lam1 phi2 lam2 : ℝ) : ℝ :=
  Real.sin phi1 * Real.sin phi2 +
    Real.cos phi1 * Real.cos phi2 * Real.cos (lam2 - lam1)

/-- The same inner product with the coordinates given in degrees, matching
the conversion of the source. -/
noncomputable def pointDot (lat1 lon1 lat2 lon2 : ℝ) : ℝ :=
  sphereDot (lat1 * π / 180) (lon1 * π / 180) (lat2 * π / 180)
    (lon2 * π / 180)

lemma cauchySchwarz3 (a1 a2 a3 b1 b2 b3 : ℝ) :
    (a1 * b1 + a2 * b2 + a3 * b3) ^ 2 ≤
      (a1 ^ 2 + a2 ^ 2 + a3 ^ 2) * (b1 ^ 2 + b2 ^ 2 + b3 ^ 2) := by
  nlinarith [sq_nonneg (a1 * b2 - a2 * b1), sq_nonneg (a1 * b3 - a3 * b1),
    sq_nonneg (a2 * b3 - a3 * b2)]

lemma sphereDot_eq_dot3 (phi1 lam1 phi2 lam2 : ℝ) :
    sphereDot phi1 lam1 phi2 lam2 =
      (Real.cos phi1 * Real.cos lam1) * (Real.cos phi2 * Real.cos lam2) +
        (Real.cos phi1 * Real.sin lam1) * (Real.cos phi2 * Real.sin lam2) +
        Real.sin phi1 * Real.sin phi2 := by
  unfold sphereDot
  rw [Real.cos_sub]
  ring

lemma unitVec_norm (phi lam : ℝ) :
    (Real.cos phi * Real.cos lam) ^ 2 + (Real.cos phi * Real.sin lam) ^ 2 +
      Real.sin phi ^ 2 = 1 := by
  have h1 := Real.sin_sq_add_cos_sq phi
  have h2 := Real.sin_sq_add_cos_sq lam
  linear_combination Real.cos phi ^ 2 * h2 + h1

lemma abs_sphereDot_le_one (phi1 lam1 phi2 lam2 : ℝ) :
    |sphereDot phi1 lam1 phi2 lam2| ≤ 1 := by
  have hsq : sphereDot phi1 lam1 phi2 lam2 ^ 2 ≤ 1 := by
    rw [sphereDot_eq_dot3]
    have hcs := cauchySchwarz3 (Real.cos phi1 * Real.cos lam1)
      (Real.cos phi1 * Real.sin lam1) (Real.sin phi1)
      (Real.cos phi2 * Real.cos lam2) (Real.cos phi2 * Real.sin lam2)
      (Real.sin phi2)
    rw [unitVec_norm, unitVec_norm] at hcs
    linarith
  rw [abs_le]
  constructor <;> nlinarith [hsq]

lemma sin_half_mul_self (v : ℝ) :
    Real.sin (v / 2) * Real.sin (v / 2) = (1 - Real.cos v) / 2 := by
  have h1 := Real.sin_sq_add_cos_sq (v / 2)
  have h2 := Real.cos_sq (v / 2)
  rw [show 2 * (v / 2) = v by ring] at h2
  nlinarith [h1, h2]

/-- The Haversine intermediate value is `(1 - d) / 2` for the unit-vector
inner product `d`. -/
lemma haversineA_eq (lat1 lon1 lat2 lon2 : ℝ) :
    haversineA lat1 lon1 lat2 lon2 =
      (1 - pointDot lat1 lon1 lat2 lon2) / 2 := by
  unfold haversineA pointDot sphereDot
  rw [show (lat2 - lat1) * π / 180 = lat2 * π / 180 - lat1 * π / 180 by ring,
    show (lon2 - lon1) * π / 180 = lon2 * π / 180 - lon1 * π / 180 by ring]
  have hLat := sin_half_mul_self (lat2 * π / 180 - lat1 * π / 180)
  have hLon := sin_half_mul_self (lon2 * π / 180 - lon1 * π / 180)
  rw [Real.cos_sub] at hLat
  linear_combination hLat +
    Real.cos (lat1 * π / 180) * Real.cos (lat2 * π / 180) * hLon

lemma arg_cos_sin (t : ℝ) (h0 : -π < t) (h1 : t ≤ π) :
    Complex.arg ⟨Real.cos t, Real.sin t⟩ = t := by
  have hz : (⟨Real.cos t, Real.sin t⟩ : ℂ) =
      Complex.cos ↑t + Complex.sin ↑t * Complex.I := by
    rw [← Complex.ofReal_cos, ← Complex.ofReal_sin]
    exact Complex.mk_eq_add_mul_I _ _
  rw [hz]
  exact Complex.arg_cos_add_sin_mul_I ⟨h0, h1⟩

/-- The Haversine distance is the sphere radius times the central angle. -/
lemma haversineDistance_eq_arccos (lat1 lon1 lat2 lon2 : ℝ) :
    haversineDistance lat1 lon1 lat2 lon2 =
      6371 * Real.arccos (pointDot lat1 lon1 lat2 lon2) := by
  have habs := abs_sphereDot_le_one (lat1 * π / 180) (lon1 * π / 180)
    (lat2 * π / 180) (lon2 * π / 180)
  have hd : |pointDot lat1 lon1 lat2 lon2| ≤ 1 := habs
  obtain ⟨hd1, hd2⟩ := abs_le.mp hd
  have hθ0 := Real.arccos_nonneg (pointDot lat1 lon1 lat2 lon2)
  have hθπ := Real.arccos_le_pi (pointDot lat1 lon1 lat2 lon2)
  have hcosθ := Real.cos_arccos hd1 hd2
  unfold haversineDistance
  dsimp only
  rw [haversineA_eq]
  have hs : Real.sqrt ((1 - pointDot lat1 lon1 lat2 lon2) / 2) =
      Real.sin (Real.arccos (pointDot lat1 lon1 lat2 lon2) / 2) := by
    rw [Real.sin_half_eq_sqrt hθ0 (by linarith [Real.pi_pos]), hcosθ]
  have hc : Real.sqrt (1 - (1 - pointDot lat1 lon1 lat2 lon2) / 2) =
      Real.cos (Real.arccos (pointDot lat1 lon1 lat2 lon2) / 2) := by
    rw [Real.cos_half (by linarith [Real.pi_pos]) hθπ, hcosθ]
    rw [show 1 - (1 - pointDot lat1 lon1 lat2 lon2) / 2 =
      (1 + pointDot lat1 lon1 lat2 lon2) / 2 by ring]
  rw [hs, hc]
  unfold atan2
  rw [arg_cos_sin (Real.arccos (pointDot lat1 lon1 lat2 lon2) / 2)
    (by linarith [Real.pi_pos]) (by linarith)]
  ring

lemma haversineDistance_nonneg (lat1 lon1 lat2 lon2 : ℝ) :
    0 ≤ haversineDistance lat1 lon1 lat2 lon2 := by
  rw [haversineDistance_eq_arccos]
  have := Real.arccos_nonneg (pointDot lat1 lon1 lat2 lon2)
  linarith

lemma pointDot_symm (lat1 lon1 lat2 lon2 : ℝ) :
    pointDot lat1 lon1 lat2 lon2 = pointDot lat2 lon2 lat1 lon1 := by
  unfold pointDot sphereDot
  rw [Real.cos_sub, Real.cos_sub]
  ring

lemma haversineDistance_symm (lat1 lon1 lat2 lon2 : ℝ) :
    haversineDistance lat1 lon1 lat2 lon2 =
      haversineDistance lat2 lon2 lat1 lon1 := by
  rw [haversineDistance_eq_arccos, haversineDistance_eq_arccos,
    pointDot_symm]

lemma pointDot_self (lat lon : ℝ) : pointDot lat lon lat lon = 1 := by
  unfold pointDot sphereDot
  rw [sub_self, Real.cos_zero]
  linear_combination Real.sin_sq_add_cos_sq (lat * π / 180)

lemma haversineDistance_self (lat lon : ℝ) :
    haversineDistance lat lon lat lon = 0 := by
  rw [haversineDistance_eq_arccos, pointDot_self, Real.arccos_one, mul_zero]

lemma arccos_antitone {a b : ℝ} (h : a ≤ b) :
    Real.arccos b ≤ Real.arccos a := by
  rw [Real.arccos_eq_pi_div_two_sub_arcsin, Real.arccos_eq_pi_div_two_sub_arcsin]
  have := Real.monotone_arcsin h
  linarith

lemma proj_inner_sq (a1 a2 a3 b1 b2 b3 c1 c2 c3 : ℝ)
    (ha : a1 ^ 2 + a2 ^ 2 + a3 ^ 2 = 1) (hb : b1 ^ 2 + b2 ^ 2 + b3 ^ 2 = 1)
    (hc : c1 ^ 2 + c2 ^ 2 + c3 ^ 2 = 1) :
    ((a1 * c1 + a2 * c2 + a3 * c3) -
        (a1 * b1 + a2 * b2 + a3 * b3) * (b1 * c1 + b2 * c2 + b3 * c3)) ^ 2 ≤
      (1 - (a1 * b1 + a2 * b2 + a3 * b3) ^ 2) *
        (1 - (b1 * c1 + b2 * c2 + b3 * c3) ^ 2) := by
  have e1 : (a1 - (a1 * b1 + a2 * b2 + a3 * b3) * b1) *
        (c1 - (b1 * c1 + b2 * c2 + b3 * c3) * b1) +
      (a2 - (a1 * b1 + a2 * b2 + a3 * b3) * b2) *
        (c2 - (b1 * c1 + b2 * c2 + b3 * c3) * b2) +
      (a3 - (a1 * b1 + a2 * b2 + a3 * b3) * b3) *
        (c3 - (b1 * c1 + b2 * c2 + b3 * c3) * b3) =
      (a1 * c1 + a2 * c2 + a3 * c3) -
        (a1 * b1 + a2 * b2 + a3 * b3) * (b1 * c1 + b2 * c2 + b3 * c3) := by
    linear_combination ((a1 * b1 + a2 * b2 + a3 * b3) *
      (b1 * c1 + b2 * c2 + b3 * c3)) * hb
  have e2 : (a1 - (a1 * b1 + a2 * b2 + a3 * b3) * b1) ^ 2 +
      (a2 - (a1 * b1 + a2 * b2 + a3 * b3) * b2) ^ 2 +
      (a3 - (a1 * b1 + a2 * b2 + a3 * b3) * b3) ^ 2 =
      1 - (a1 * b1 + a2 * b2 + a3 * b3) ^ 2 := by
    linear_combination ha + (a1 * b1 + a2 * b2 + a3 * b3) ^ 2 * hb
  have e3 : (c1 - (b1 * c1 + b2 * c2 + b3 * c3) * b1) ^ 2 +
      (c2 - (b1 * c1 + b2 * c2 + b3 * c3) * b2) ^ 2 +
      (c3 - (b1 * c1 + b2 * c2 + b3 * c3) * b3) ^ 2 =
      1 - (b1 * c1 + b2 * c2 + b3 * c3) ^ 2 := by
    linear_combination hc + (b1 * c1 + b2 * c2 + b3 * c3) ^ 2 * hb
  rw [← e1, ← e2, ← e3]
  exact cauchySchwarz3 _ _ _ _ _ _

lemma sphereDot_proj (phi1 lam1 phi2 lam2 phi3 lam3 : ℝ) :
    (sphereDot phi1 lam1 phi3 lam3 -
        sphereDot phi1 lam1 phi2 lam2 * sphereDot phi2 lam2 phi3 lam3) ^ 2 ≤
      (1 - sphereDot phi1 lam1 phi2 lam2 ^ 2) *
        (1 - sphereDot phi2 lam2 phi3 lam3 ^ 2) := by
  rw [sphereDot_eq_dot3 phi1 lam1 phi3 lam3,
    sphereDot_eq_dot3 phi1 lam1 phi2 lam2,
    sphereDot_eq_dot3 phi2 lam2 phi3 lam3]
  have h := proj_inner_sq (Real.cos phi1 * Real.cos lam1)
    (Real.cos phi1 * Real.sin lam1) (Real.sin phi1)
    (Real.cos phi2 * Real.cos lam2) (Real.cos phi2 * Real.sin lam2)
    (Real.sin phi2) (Real.cos phi3 * Real.cos lam3)
    (Real.cos phi3 * Real.sin lam3) (Real.sin phi3)
    (unitVec_norm phi1 lam1) (unitVec_norm phi2 lam2) (unitVec_norm phi3 lam3)
  nlinarith [h]

/-- Spherical triangle inequality for the central angle. -/
lemma arccos_sphereDot_triangle (phi1 lam1 phi2 lam2 phi3 lam3 : ℝ) :
    Real.arccos (sphereDot phi1 lam1 phi3 lam3) ≤
      Real.arccos (sphereDot phi1 lam1 phi2 lam2) +
        Real.arccos (sphereDot phi2 lam2 phi3 lam3) := by
  set d12 := sphereDot phi1 lam1 phi2 lam2 with hd12
  set d23 := sphereDot phi2 lam2 phi3 lam3 with hd23
  set d13 := sphereDot phi1 lam1 phi3 lam3 with hd13
  by_cases hpi : π ≤ Real.arccos d12 + Real.arccos d23
  · exact le_trans (Real.arccos_le_pi _) hpi
  push_neg at hpi
  obtain ⟨h12l, h12r⟩ := abs_le.mp (abs_sphereDot_le_one phi1 lam1 phi2 lam2)
  obtain ⟨h23l, h23r⟩ := abs_le.mp (abs_sphereDot_le_one phi2 lam2 phi3 lam3)
  have hsum0 : 0 ≤ Real.arccos d12 + Real.arccos d23 :=
    add_nonneg (Real.arccos_nonneg _) (Real.arccos_nonneg _)
  have hsq1 : (0 : ℝ) ≤ 1 - d12 ^ 2 := by nlinarith
  have hsq2 : (0 : ℝ) ≤ 1 - d23 ^ 2 := by nlinarith
  have hcos : Real.cos (Real.arccos d12 + Real.arccos d23) =
      d12 * d23 - Real.sqrt (1 - d12 ^ 2) * Real.sqrt (1 - d23 ^ 2) := by
    rw [Real.cos_add, Real.cos_arccos h12l h12r, Real.cos_arccos h23l h23r,
      Real.sin_arccos, Real.sin_arccos]
  have habs : |d13 - d12 * d23| ≤
      Real.sqrt (1 - d12 ^ 2) * Real.sqrt (1 - d23 ^ 2) := by
    rw [← Real.sqrt_mul hsq1]
    rw [← Real.sqrt_sq_eq_abs]
    exact Real.sqrt_le_sqrt (sphereDot_proj phi1 lam1 phi2 lam2 phi3 lam3)
  have hkey : Real.cos (Real.arccos d12 + Real.arccos d23) ≤ d13 := by
    rw [hcos]
    have := (abs_le.mp habs).1
    linarith
  have hfin := arccos_antitone hkey
  rw [Real.arccos_cos hsum0 (le_of_lt hpi)] at hfin
  exact hfin

/-- Triangle inequality for the Haversine distance. -/
lemma haversineDistance_triangle (lat1 lon1 lat2 lon2 lat3 lon3 : ℝ) :
    haversineDistance lat1 lon1 lat3 lon3 ≤
      haversineDistance lat1 lon1 lat2 lon2 +
        haversineDistance lat2 lon2 lat3 lon3 := by
  rw [haversineDistance_eq_arccos, haversineDistance_eq_arccos,
    haversineDistance_eq_arccos]
  have h := arccos_sphereDot_triangle (lat1 * π / 180) (lon1 * π / 180)
    (lat2 * π / 180) (lon2 * π / 180) (lat3 * π / 180) (lon3 * π / 180)
  unfold pointDot
  linarith

/-! ### Range of the bearing -/

lemma atan2_mem_Ioc (y xc : ℝ) : atan2 y xc ∈ Set.Ioc (-π) π :=
  Complex.arg_mem_Ioc _

lemma jsMod_nonneg_lt (v : ℝ) (hv : 0 ≤ v) :
    0 ≤ jsMod v 360 ∧ jsMod v 360 < 360 := by
  unfold jsMod jsTrunc
  have hdiv : 0 ≤ v / 360 := by positivity
  rw [if_pos hdiv]
  have h1 := Int.fract_nonneg (v / 360)
  have h2 := Int.fract_lt_one (v / 360)
  unfold Int.fract at h1 h2
  constructor <;> nlinarith [h1, h2]

lemma bearing_mem (lat1 lon1 lat2 lon2 : ℝ) :
    0 ≤ bearing lat1 lon1 lat2 lon2 ∧ bearing lat1 lon1 lat2 lon2 < 360 := by
  unfold bearing
  dsimp only
  have hπ := Real.pi_pos
  obtain ⟨hl, _⟩ := atan2_mem_Ioc
    (Real.sin ((lon2 - lon1) * π / 180) * Real.cos (lat2 * π / 180))
    (Real.cos (lat1 * π / 180) * Real.sin (lat2 * π / 180) -
      Real.sin (lat1 * π / 180) * Real.cos (lat2 * π / 180) *
        Real.cos ((lon2 - lon1) * π / 180))
  apply jsMod_nonneg_lt
  have h1 : (-180 : ℝ) <
      atan2 (Real.sin ((lon2 - lon1) * π / 180) * Real.cos (lat2 * π / 180))
        (Real.cos (lat1 * π / 180) * Real.sin (lat2 * π / 180) -
          Real.sin (lat1 * π / 180) * Real.cos (lat2 * π / 180) *
            Real.cos ((lon2 - lon1) * π / 180)) * 180 / π := by
    rw [lt_div_iff₀ hπ]
    nlinarith [hl]
  linarith

/-! ### Structure of the drift series -/

lemma generateMockDriftData_length (pts : List TrajectoryPoint) :
    (generateMockDriftData pts).length = pts.length - 1 := by
  cases pts with
  | nil => rfl
  | cons p rest => simp [generateMockDriftData]

lemma generateMockDriftData_get (pts : List TrajectoryPoint) (i : ℕ)
    (h : i < (generateMockDriftData pts).length) :
    (generateMockDriftData pts).get ⟨i, h⟩ =
      mkDriftRecord (pts.getD 0 default) (pts.getD i default)
        (pts.getD (i + 1) default)
        (cumulativeDistance (pts.take (i + 2)))  := by
  cases pts with
  | nil => simp [generateMockDriftData] at h
  | cons p rest =>
    have hlen : i < rest.length := by
      have := generateMockDriftData_length (p :: rest)
      simp only [this, List.length_cons] at h ⊢
      omega
    rw [List.get_eq_getElem]
    simp only [generateMockDriftData, List.getElem_map, List.getElem_range]
    congr 1
    all_goals
      rw [List.getD_eq_getElem (p :: rest) p
          (by simp only [List.length_cons]; omega),
        List.getD_eq_getElem (p :: rest) default
          (by simp only [List.length_cons]; omega)]

lemma mkDriftRecord_timestamp (s p q : TrajectoryPoint) (c : ℝ) :
    (mkDriftRecord s p q c).timestamp = q.timestamp := rfl

lemma mkDriftRecord_latitude (s p q : TrajectoryPoint) (c : ℝ) :
    (mkDriftRecord s p q c).latitude = q.latitude := rfl

lemma mkDriftRecord_longitude (s p q : TrajectoryPoint) (c : ℝ) :
    (mkDriftRecord s p q c).longitude = q.longitude := rfl

lemma mkDriftRecord_distance (s p q : TrajectoryPoint) (c : ℝ) :
    (mkDriftRecord s p q c).distance = c := rfl

lemma mkDriftRecord_direction (s p q : TrajectoryPoint) (c : ℝ) :
    (mkDriftRecord s p q c).direction =
      bearing p.latitude p.longitude q.latitude q.longitude := rfl

lemma mkDriftRecord_displacement (s p q : TrajectoryPoint) (c : ℝ) :
    (mkDriftRecord s p q c).displacement =
      haversineDistance s.latitude s.longitude q.latitude q.longitude := rfl

lemma mkDriftRecord_speed (s p q : TrajectoryPoint) (c : ℝ) :
    (mkDriftRecord s p q c).speed =
      max 0 (min (if 0 < (q.timestamp - p.timestamp) / (1000 * 60 * 60) then
        haversineDistance p.latitude p.longitude q.latitude q.longitude /
          ((q.timestamp - p.timestamp) / (1000 * 60 * 60)) else 0) 10) := rfl

/-! ### The cumulative distance as a sum of consecutive-pair distances -/

lemma foldl_enumFrom_sum (pts : List TrajectoryPoint)
    (t : List TrajectoryPoint) : ∀ (k : ℕ) (acc : ℝ),
    (List.enumFrom (k + 1) t).foldl
      (fun total ip =>
        if ip.1 = 0 then 0
        else
          total +
            haversineDistance (pts.getD (ip.1 - 1) default).latitude
              (pts.getD (ip.1 - 1) default).longitude ip.2.latitude
              ip.2.longitude) acc
      = acc + ∑ j ∈ Finset.range t.length,
          haversineDistance (pts.getD (k + j) default).latitude
            (pts.getD (k + j) default).longitude (t.getD j default).latitude
            (t.getD j default).longitude := by
  induction t with
  | nil => intro k acc; simp
  | cons q t' ih =>
    intro k acc
    rw [List.enumFrom_cons, List.foldl_cons]
    dsimp only
    rw [if_neg (by omega : ¬(k + 1 = 0)), Nat.add_sub_cancel, ih (k + 1)]
    rw [List.length_cons, Finset.sum_range_succ']
    simp only [List.getD_cons_zero, List.getD_cons_succ, Nat.add_zero]
    simp only [show ∀ j : ℕ, k + 1 + j = k + (j + 1) from fun j => by omega]
    ring

lemma cumulativeDistance_eq_sum (pts : List TrajectoryPoint) :
    cumulativeDistance pts =
      ∑ j ∈ Finset.range (pts.length - 1), pairDistance pts j := by
  cases pts with
  | nil => simp [cumulativeDistance]
  | cons p t =>
    unfold cumulativeDistance
    rw [List.enum_cons, List.foldl_cons, if_pos rfl]
    rw [show (1 : ℕ) = 0 + 1 by omega]
    rw [foldl_enumFrom_sum (p :: t) t 0 0, zero_add]
    rw [show (p :: t).length - 1 = t.length by simp]
    refine Finset.sum_congr rfl fun j _ => ?_
    unfold pairDistance
    rw [zero_add, List.getD_cons_succ]

lemma getD_take_eq (l : List TrajectoryPoint) (m j : ℕ)
    (d : TrajectoryPoint) (h : j < m) (h2 : j < l.length) :
    (l.take m).getD j d = l.getD j d := by
  rw [List.getD_eq_getElem (l.take m) d
      (by simp only [List.length_take]; omega),
    List.getD_eq_getElem l d h2]
  exact List.getElem_take l

lemma pairDistance_take (pts : List TrajectoryPoint) (m j : ℕ)
    (h : j + 1 < m) (h2 : j + 1 < pts.length) :
    pairDistance (pts.take m) j = pairDistance pts j := by
  unfold pairDistance
  rw [getD_take_eq pts m j default (by omega) (by omega),
    getD_take_eq pts m (j + 1) default h h2]

/-- The cumulative distance of the prefix ending at point `i + 1` is the
sum of the first `i + 1` consecutive-pair distances. -/
lemma cumulativeDistance_take (pts : List TrajectoryPoint) (i : ℕ)
    (h : i + 1 < pts.length) :
    cumulativeDistance (pts.take (i + 2)) =
      ∑ j ∈ Finset.range (i + 1), pairDistance pts j := by
  rw [cumulativeDistance_eq_sum]
  rw [show (pts.take (i + 2)).length - 1 = i + 1 by
    simp only [List.length_take]; omega]
  exact Finset.sum_congr rfl fun j hj => by
    have hj' := Finset.mem_range.mp hj
    exact pairDistance_take pts (i + 2) j (by omega) (by omega)

/-- Chained triangle inequality: the great-circle distance from the first
point straight to point `m` is at most the sum of the first `m`
consecutive-pair distances. -/
lemma displacement_le_sum (pts : List TrajectoryPoint) (m : ℕ) :
    haversineDistance (pts.getD 0 default).latitude
        (pts.getD 0 default).longitude (pts.getD m default).latitude
        (pts.getD m default).longitude ≤
      ∑ j ∈ Finset.range m, pairDistance pts j := by
  induction m with
  | zero => simp [haversineDistance_self]
  | succ n ih =>
    rw [Finset.sum_range_succ]
    have htri := haversineDistance_triangle
      (pts.getD 0 default).latitude (pts.getD 0 default).longitude
      (pts.getD n default).latitude (pts.getD n default).longitude
      (pts.getD (n + 1) default).latitude (pts.getD (n + 1) default).longitude
    have hfold : pairDistance pts n =
        haversineDistance (pts.getD n default).latitude
          (pts.getD n default).longitude (pts.getD (n + 1) default).latitude
          (pts.getD (n + 1) default).longitude := rfl
    rw [hfold]
    linarith

/-! ### The profile grouper -/

lemma depthLE_trans : ∀ a b c : TrajectoryPoint, depthLE a b = true →
    depthLE b c = true → depthLE a c = true := by
  intro a b c hab hbc
  simp only [depthLE, decide_eq_true_eq] at hab hbc ⊢
  exact le_trans hab hbc

lemma depthLE_total : ∀ a b : TrajectoryPoint,
    (depthLE a b || depthLE b a) = true := by
  intro a b
  simp only [depthLE, Bool.or_eq_true, decide_eq_true_eq]
  exact le_total _ _

lemma sortByDepth_sorted (profile : List TrajectoryPoint) :
    List.Sorted (fun a b => depthKey a ≤ depthKey b)
      (sortByDepth profile) := by
  have h := List.sorted_mergeSort depthLE_trans depthLE_total profile
  exact h.imp fun hab => by simpa [depthLE, decide_eq_true_eq] using hab

lemma sortByDepth_length (profile : List TrajectoryPoint) :
    (sortByDepth profile).length = profile.length :=
  List.length_mergeSort profile

lemma groupProfiles_nil : groupProfiles [] = [] := by
  rw [groupProfiles]

lemma groupProfiles_step (l : List TrajectoryPoint) (hl : 1 < l.length) :
    groupProfiles l =
      sortByDepth (l.take profileSize) ::
        groupProfiles (l.drop profileSize) := by
  cases l with
  | nil => simp at hl
  | cons p rest =>
    rw [groupProfiles]
    rw [if_pos (by
      simp only [List.length_take, List.length_cons, profileSize]
      simp only [List.length_cons] at hl
      omega)]

lemma groupProfiles_short (l : List TrajectoryPoint) (hl : l.length ≤ 1) :
    groupProfiles l = [] := by
  cases l with
  | nil => exact groupProfiles_nil
  | cons p rest =>
    cases rest with
    | nil =>
      rw [groupProfiles]
      rw [if_neg (by simp [profileSize])]
      rw [show List.drop profileSize [p] = [] from rfl]
      exact groupProfiles_nil
    | cons q rest' => simp at hl

/-- Every group produced by the windowing loop has more than one and at
most `profileSize` points and is sorted ascending by depth key. -/
lemma groupProfiles_mem (l : List TrajectoryPoint)
    (g : List TrajectoryPoint) (hg : g ∈ groupProfiles l) :
    1 < g.length ∧ g.length ≤ profileSize ∧
      List.Sorted (fun a b => depthKey a ≤ depthKey b) g := by
  have H : ∀ (n : ℕ) (l' : List TrajectoryPoint), l'.length ≤ n →
      ∀ g' ∈ groupProfiles l', 1 < g'.length ∧ g'.length ≤ profileSize ∧
        List.Sorted (fun a b => depthKey a ≤ depthKey b) g' := by
    intro n
    induction n with
    | zero =>
      intro l' hl g' hg'
      rw [groupProfiles_short l' (by omega)] at hg'
      simp at hg'
    | succ n ih =>
      intro l' hl g' hg'
      by_cases h2 : 1 < l'.length
      · rw [groupProfiles_step l' h2] at hg'
        rcases List.mem_cons.mp hg' with hgeq | hgtail
        · subst hgeq
          refine ⟨?_, ?_, sortByDepth_sorted _⟩
          · rw [sortByDepth_length, List.length_take]
            simp only [profileSize]
            omega
          · rw [sortByDepth_length, List.length_take]
            simp only [profileSize]
            omega
        · exact ih (l'.drop profileSize)
            (by simp only [List.length_drop, profileSize]; omega) g' hgtail
      · rw [groupProfiles_short l' (by omega)] at hg'
        simp at hg'
  exact H l.length l (le_refl _) g hg

/-! ### The worked equator scenario -/

lemma haversine_equator_one_degree :
    haversineDistance 0 0 0 1 = 6371 * π / 180 := by
  rw [haversineDistance_eq_arccos]
  have hπ := Real.pi_pos
  have hdot : pointDot 0 0 0 1 = Real.cos (π / 180) := by
    unfold pointDot sphereDot
    rw [show (0 : ℝ) * π / 180 = 0 by ring]
    rw [show (1 : ℝ) * π / 180 - 0 = π / 180 by ring, Real.sin_zero,
      Real.cos_zero]
    ring
  rw [hdot, Real.arccos_cos (by positivity) (by linarith)]
  ring

lemma floor_fourFifty_div : ⌊(450 : ℝ) / 360⌋ = 1 := by
  rw [Int.floor_eq_iff] <;> norm_num

lemma jsMod_fourFifty : jsMod 450 360 = 90 := by
  unfold jsMod jsTrunc
  rw [if_pos (by norm_num : (0 : ℝ) ≤ 450 / 360), floor_fourFifty_div]
  norm_num

lemma bearing_equator_east : bearing 0 0 0 1 = 90 := by
  have hπ := Real.pi_pos
  unfold bearing
  dsimp only
  rw [show (0 : ℝ) * π / 180 = 0 by ring,
    show ((1 : ℝ) - 0) * π / 180 = π / 180 by ring, Real.sin_zero,
    Real.cos_zero]
  have hsin : 0 < Real.sin (π / 180) :=
    Real.sin_pos_of_pos_of_lt_pi (by positivity) (by linarith)
  have hx : (1 : ℝ) * 0 - 0 * 1 * Real.cos (π / 180) = 0 := by ring
  rw [hx]
  have hpt : (⟨0, Real.sin (π / 180) * 1⟩ : ℂ) =
      (Real.sin (π / 180) : ℂ) * Complex.I := by
    apply Complex.ext <;>
      simp [-Complex.ofReal_sin, Complex.mul_I_re, Complex.mul_I_im]
  unfold atan2
  rw [hpt, Complex.arg_real_mul Complex.I hsin, Complex.arg_I]
  rw [show π / 2 * 180 / π + 360 = 90 * (π / π) + 360 by ring,
    div_self (ne_of_gt hπ)]
  rw [show (90 : ℝ) * 1 + 360 = 450 by norm_num]
  exact jsMod_fourFifty

lemma haversine_equator_lower : (10 : ℝ) ≤ 6371 * π / 180 := by
  nlinarith [Real.pi_gt_three]

lemma haversine_equator_approx : |6371 * π / 180 - 111.19| < 1 / 100 := by
  rw [abs_lt]
  constructor <;> nlinarith [Real.pi_gt_d6, Real.pi_lt_d6]

lemma generateMockDriftData_example :
    generateMockDriftData [pointA, pointB] =
      [mkDriftRecord pointA pointA pointB
        (cumulativeDistance [pointA, pointB])] := by
  simp [generateMockDriftData, List.range_succ]

lemma cumulativeDistance_example :
    cumulativeDistance [pointA, pointB] = 6371 * π / 180 := by
  rw [cumulativeDistance_eq_sum]
  simp only [List.length_cons, List.length_nil]
  rw [show (2 : ℕ) - 1 = 1 by omega, Finset.sum_range_one]
  unfold pairDistance
  rw [List.getD_cons_zero, List.getD_cons_succ, List.getD_cons_zero]
  show haversineDistance pointA.latitude pointA.longitude pointB.latitude
    pointB.longitude = 6371 * π / 180
  rw [show pointA.latitude = 0 from rfl, show pointA.longitude = 0 from rfl,
    show pointB.latitude = 0 from rfl, show pointB.longitude = 1 from rfl]
  exact haversine_equator_one_degree

/-! ### Claim theorems -/

/-- C1: for every trajectory and every in-range record index, the speed
of the drift record equals the Haversine distance between the two points
divided by the elapsed hours clamped into `[0, 10]` km/h, and whenever
the later point's timestamp is equal to or earlier than the previous
point's, the speed is `0`; in every case the speed lies in `[0, 10]`
(so it is never negative, and in this real-number model infinities and
NaN do not arise). -/
theorem drift_speed_clamped (pts : List TrajectoryPoint) (i : ℕ)
    (h : i < (generateMockDriftData pts).length) :
    ((pts.getD (i + 1) default).timestamp ≤ (pts.getD i default).timestamp →
      ((generateMockDriftData pts).get ⟨i, h⟩).speed = 0) ∧
    ((pts.getD i default).timestamp < (pts.getD (i + 1) default).timestamp →
      ((generateMockDriftData pts).get ⟨i, h⟩).speed =
        min 10 (max 0 (haversineDistance (pts.getD i default).latitude
          (pts.getD i default).longitude (pts.getD (i + 1) default).latitude
          (pts.getD (i + 1) default).longitude /
          (((pts.getD (i + 1) default).timestamp -
            (pts.getD i default).timestamp) / (1000 * 60 * 60))))) ∧
    0 ≤ ((generateMockDriftData pts).get ⟨i, h⟩).speed ∧
    ((generateMockDriftData pts).get ⟨i, h⟩).speed ≤ 10 := by
  rw [generateMockDriftData_get pts i h, mkDriftRecord_speed]
  have hd0 : 0 ≤ haversineDistance (pts.getD i default).latitude
      (pts.getD i default).longitude (pts.getD (i + 1) default).latitude
      (pts.getD (i + 1) default).longitude := haversineDistance_nonneg _ _ _ _
  refine ⟨?_, ?_, le_max_left _ _,
    max_le (by norm_num) (min_le_right _ _)⟩
  · intro hle
    have hnp : ¬(0 < ((pts.getD (i + 1) default).timestamp -
        (pts.getD i default).timestamp) / (1000 * 60 * 60)) := by
      intro hpos
      have h36 : (0 : ℝ) < 1000 * 60 * 60 := by norm_num
      nlinarith [hpos]
    rw [if_neg hnp]
    norm_num
  · intro hlt
    have hpos : 0 < ((pts.getD (i + 1) default).timestamp -
        (pts.getD i default).timestamp) / (1000 * 60 * 60) :=
      div_pos (by linarith) (by norm_num)
    rw [if_pos hpos]
    have hq : 0 ≤ haversineDistance (pts.getD i default).latitude
        (pts.getD i default).longitude (pts.getD (i + 1) default).latitude
        (pts.getD (i + 1) default).longitude /
        (((pts.getD (i + 1) default).timestamp -
          (pts.getD i default).timestamp) / (1000 * 60 * 60)) :=
      div_nonneg hd0 (le_of_lt hpos)
    rw [max_eq_right (le_min hq (by norm_num)), max_eq_right hq]
    exact min_comm _ _

/-- Witness for C1 at the concrete two-point equator trajectory, whose
timestamps strictly increase. -/
theorem drift_speed_clamped_witness :
    0 ≤ ((generateMockDriftData [pointA, pointB]).get
        ⟨0, by simp [generateMockDriftData]⟩).speed ∧
    ((generateMockDriftData [pointA, pointB]).get
        ⟨0, by simp [generateMockDriftData]⟩).speed ≤ 10 ∧
    ((generateMockDriftData [pointA, pointB]).get
        ⟨0, by simp [generateMockDriftData]⟩).speed =
      min 10 (max 0 (haversineDistance
        ([pointA, pointB].getD 0 default).latitude
        ([pointA, pointB].getD 0 default).longitude
        ([pointA, pointB].getD 1 default).latitude
        ([pointA, pointB].getD 1 default).longitude /
        ((([pointA, pointB].getD 1 default).timestamp -
          ([pointA, pointB].getD 0 default).timestamp) /
          (1000 * 60 * 60)))) :=
  ⟨(drift_speed_clamped [pointA, pointB] 0
      (by simp [generateMockDriftData])).2.2.1,
    (drift_speed_clamped [pointA, pointB] 0
      (by simp [generateMockDriftData])).2.2.2,
    (drift_speed_clamped [pointA, pointB] 0
      (by simp [generateMockDriftData])).2.1
      (by norm_num [pointA, pointB])⟩

/-- C2: the drift series has exactly `n - 1` records (so `max(0, n-1)`,
by truncated subtraction), a trajectory with fewer than two points yields
the empty series, and record `i` carries the timestamp, latitude and
longitude of input point `i + 1`, so output order matches input order. -/
theorem drift_count_and_order (pts : List TrajectoryPoint) :
    (generateMockDriftData pts).length = pts.length - 1 ∧
    (pts.length < 2 → generateMockDriftData pts = []) ∧
    ∀ (i : ℕ) (h : i < (generateMockDriftData pts).length),
      ((generateMockDriftData pts).get ⟨i, h⟩).timestamp =
          (pts.getD (i + 1) default).timestamp ∧
        ((generateMockDriftData pts).get ⟨i, h⟩).latitude =
          (pts.getD (i + 1) default).latitude ∧
        ((generateMockDriftData pts).get ⟨i, h⟩).longitude =
          (pts.getD (i + 1) default).longitude := by
  refine ⟨generateMockDriftData_length pts, fun hlt => ?_, fun i h => ?_⟩
  · have hl := generateMockDriftData_length pts
    exact List.length_eq_zero.mp (by omega)
  · rw [generateMockDriftData_get pts i h]
    exact ⟨rfl, rfl, rfl⟩

/-- Witness for C2: singleton input yields the empty series, and at the
two-point example the single record copies point 1's coordinates. -/
theorem drift_count_and_order_witness :
    generateMockDriftData [pointA] = [] ∧
    (generateMockDriftData [pointA, pointB]).length = 1 ∧
    ((generateMockDriftData [pointA, pointB]).get
        ⟨0, by simp [generateMockDriftData]⟩).latitude = pointB.latitude := by
  refine ⟨(drift_count_and_order [pointA]).2.1 (by simp), ?_, ?_⟩
  · rw [(drift_count_and_order [pointA, pointB]).1]
    rfl
  · have h :=
      ((drift_count_and_order [pointA, pointB]).2.2 0
        (by simp [generateMockDriftData])).2.1
    rw [h]
    rfl

/-- C3: the `distance` field of drift record `i` is the sum of the
consecutive-pair Haversine distances of the first `i + 1` pairs, and the
`distance` fields of successive records are non-decreasing. -/
theorem drift_distance_cumulative (pts : List TrajectoryPoint) (i : ℕ)
    (h : i < (generateMockDriftData pts).length) :
    ((generateMockDriftData pts).get ⟨i, h⟩).distance =
      ∑ j ∈ Finset.range (i + 1), pairDistance pts j ∧
    ∀ h2 : i + 1 < (generateMockDriftData pts).length,
      ((generateMockDriftData pts).get ⟨i, h⟩).distance ≤
        ((generateMockDriftData pts).get ⟨i + 1, h2⟩).distance := by
  have hlen := generateMockDriftData_length pts
  have hi : i + 1 < pts.length := by omega
  constructor
  · rw [generateMockDriftData_get pts i h, mkDriftRecord_distance,
      cumulativeDistance_take pts i hi]
  · intro h2
    have hi2 : i + 1 + 1 < pts.length := by omega
    rw [generateMockDriftData_get pts i h, mkDriftRecord_distance,
      cumulativeDistance_take pts i hi,
      generateMockDriftData_get pts (i + 1) h2, mkDriftRecord_distance,
      cumulativeDistance_take pts (i + 1) hi2]
    have hpd : 0 ≤ pairDistance pts (i + 1) :=
      haversineDistance_nonneg _ _ _ _
    have hstep : ∑ j ∈ Finset.range (i + 1 + 1), pairDistance pts j =
        (∑ j ∈ Finset.range (i + 1), pairDistance pts j) +
          pairDistance pts (i + 1) :=
      Finset.sum_range_succ _ _
    linarith

/-- Witness for C3 at the concrete two-point equator trajectory. -/
theorem drift_distance_cumulative_witness :
    ((generateMockDriftData [pointA, pointB]).get
        ⟨0, by simp [generateMockDriftData]⟩).distance =
      ∑ j ∈ Finset.range 1, pairDistance [pointA, pointB] j :=
  (drift_distance_cumulative [pointA, pointB] 0
    (by simp [generateMockDriftData])).1

/-- C4: for every drift record, the straight-line displacement from the
first point is at most the cumulative path distance. -/
theorem drift_displacement_le_distance (pts : List TrajectoryPoint) (i : ℕ)
    (h : i < (generateMockDriftData pts).length) :
    ((generateMockDriftData pts).get ⟨i, h⟩).displacement ≤
      ((generateMockDriftData pts).get ⟨i, h⟩).distance := by
  have hlen := generateMockDriftData_length pts
  have hi : i + 1 < pts.length := by omega
  rw [generateMockDriftData_get pts i h, mkDriftRecord_displacement,
    mkDriftRecord_distance, cumulativeDistance_take pts i hi]
  exact displacement_le_sum pts (i + 1)

/-- Witness for C4 at the concrete two-point equator trajectory. -/
theorem drift_displacement_le_distance_witness :
    ((generateMockDriftData [pointA, pointB]).get
        ⟨0, by simp [generateMockDriftData]⟩).displacement ≤
      ((generateMockDriftData [pointA, pointB]).get
        ⟨0, by simp [generateMockDriftData]⟩).distance :=
  drift_displacement_le_distance [pointA, pointB] 0
    (by simp [generateMockDriftData])

/-- C6 counterexample: the Haversine distance of the code is `0` at the
distinct coordinate pairs `(0, -180)` and `(0, 180)` (the same physical
point on the antimeridian), so distance zero does not imply that the two
coordinate pairs are equal. -/
theorem haversine_zero_at_distinct_pairs :
    haversineDistance 0 (-180) 0 180 = 0 ∧ ¬((180 : ℝ) = -180) := by
  constructor
  · rw [haversineDistance_eq_arccos]
    have hdot : pointDot 0 (-180) 0 180 = 1 := by
      unfold pointDot sphereDot
      rw [show (0 : ℝ) * π / 180 = 0 by ring]
      rw [show (180 : ℝ) * π / 180 - -180 * π / 180 = 2 * π by ring,
        Real.sin_zero, Real.cos_zero, Real.cos_two_pi]
      ring
    rw [hdot, Real.arccos_one, mul_zero]
  · norm_num

/-- C6 (amended): for coordinates in the geographic ranges the Haversine
distance is non-negative and symmetric, and equal coordinate pairs have
distance `0`; distance `0` however does not imply equal pairs (see the
antimeridian counterexample), so only the forward direction holds. -/
theorem haversine_nonneg_symm_zero (lat1 lon1 lat2 lon2 : ℝ)
    (h1 : -90 ≤ lat1 ∧ lat1 ≤ 90) (h2 : -180 ≤ lon1 ∧ lon1 ≤ 180)
    (h3 : -90 ≤ lat2 ∧ lat2 ≤ 90) (h4 : -180 ≤ lon2 ∧ lon2 ≤ 180) :
    0 ≤ haversineDistance lat1 lon1 lat2 lon2 ∧
    haversineDistance lat1 lon1 lat2 lon2 =
      haversineDistance lat2 lon2 lat1 lon1 ∧
    (lat1 = lat2 ∧ lon1 = lon2 →
      haversineDistance lat1 lon1 lat2 lon2 = 0) := by
  refine ⟨haversineDistance_nonneg _ _ _ _,
    haversineDistance_symm _ _ _ _, fun hab => ?_⟩
  rw [hab.1, hab.2]
  exact haversineDistance_self _ _

/-- Witness for the amended C6 at two concrete in-range coordinate
pairs. -/
theorem haversine_nonneg_symm_zero_witness :
    0 ≤ haversineDistance 10 20 (-30) 40 ∧
    haversineDistance 10 20 (-30) 40 = haversineDistance (-30) 40 10 20 := by
  have h := haversine_nonneg_symm_zero 10 20 (-30) 40
    (by norm_num) (by norm_num) (by norm_num) (by norm_num)
  exact ⟨h.1, h.2.1⟩

/-- C7: every bearing lies in `[0, 360)`, and hence the `direction` field
of every drift record lies in `[0, 360)`. -/
theorem bearing_direction_range (lat1 lon1 lat2 lon2 : ℝ)
    (pts : List TrajectoryPoint) :
    (0 ≤ bearing lat1 lon1 lat2 lon2 ∧ bearing lat1 lon1 lat2 lon2 < 360) ∧
    ∀ (i : ℕ) (h : i < (generateMockDriftData pts).length),
      0 ≤ ((generateMockDriftData pts).get ⟨i, h⟩).direction ∧
      ((generateMockDriftData pts).get ⟨i, h⟩).direction < 360 := by
  refine ⟨bearing_mem lat1 lon1 lat2 lon2, fun i h => ?_⟩
  rw [generateMockDriftData_get pts i h, mkDriftRecord_direction]
  exact bearing_mem _ _ _ _

/-- Witness for C7 at the concrete two-point equator trajectory. -/
theorem bearing_direction_range_witness :
    0 ≤ ((generateMockDriftData [pointA, pointB]).get
        ⟨0, by simp [generateMockDriftData]⟩).direction ∧
    ((generateMockDriftData [pointA, pointB]).get
        ⟨0, by simp [generateMockDriftData]⟩).direction < 360 :=
  (bearing_direction_range 0 0 0 1 [pointA, pointB]).2 0
    (by simp [generateMockDriftData])

/-- C8: on the two-point trajectory from `(0, 0)` at `t = 0` to `(0, 1)`
one hour later, the single drift record has distance `6371 * pi / 180`
(within `0.01` of `111.19` km), speed exactly `10` (the raw quotient
`6371 * pi / 180` km/h being clamped), and direction exactly `90`
degrees. -/
theorem drift_equator_scenario :
    (generateMockDriftData [pointA, pointB]).map DriftData.speed = [10] ∧
    (generateMockDriftData [pointA, pointB]).map DriftData.direction =
      [90] ∧
    (generateMockDriftData [pointA, pointB]).map DriftData.distance =
      [6371 * π / 180] ∧
    |6371 * π / 180 - 111.19| < 1 / 100 := by
  rw [generateMockDriftData_example]
  refine ⟨?_, ?_, ?_, haversine_equator_approx⟩
  · rw [List.map_singleton, mkDriftRecord_speed]
    rw [show (pointB.timestamp - pointA.timestamp) / (1000 * 60 * 60) =
      (1 : ℝ) by norm_num [pointA, pointB]]
    rw [if_pos (by norm_num : (0 : ℝ) < 1)]
    rw [show haversineDistance pointA.latitude pointA.longitude
        pointB.latitude pointB.longitude / 1 = 6371 * π / 180 by
      rw [div_one]
      exact haversine_equator_one_degree]
    rw [min_eq_right haversine_equator_lower,
      max_eq_right (by norm_num : (0 : ℝ) ≤ 10)]
  · rw [List.map_singleton, mkDriftRecord_direction]
    rw [show pointA.latitude = (0 : ℝ) from rfl,
      show pointA.longitude = (0 : ℝ) from rfl,
      show pointB.latitude = (0 : ℝ) from rfl,
      show pointB.longitude = (1 : ℝ) from rfl, bearing_equator_east]
  · rw [List.map_singleton, mkDriftRecord_distance,
      cumulativeDistance_example]

/-- C5: the profile grouper keeps only points with both temperature and
depth, windows them in consecutive fives, drops windows with fewer than
two points (every returned group has more than one and at most five
points) and sorts every returned group ascending by depth; in particular
a 12-point trajectory whose points all carry valid depth and temperature
yields exactly 3 groups of sizes 5, 5 and 2, each sorted ascending by
depth. -/
theorem profile_grouping (pts : List TrajectoryPoint)
    (hval : ∀ p ∈ pts, isValidProfilePoint p = true)
    (hlen : pts.length = 12) :
    (∀ (l : List TrajectoryPoint), ∀ g ∈ profileGroups l,
      1 < g.length ∧ g.length ≤ profileSize ∧
        List.Sorted (fun a b => depthKey a ≤ depthKey b) g) ∧
    (profileGroups pts).length = 3 ∧
    (profileGroups pts).map List.length = [5, 5, 2] ∧
    ∀ g ∈ profileGroups pts,
      List.Sorted (fun a b => depthKey a ≤ depthKey b) g := by
  have hfilter : pts.filter isValidProfilePoint = pts :=
    List.filter_eq_self.mpr hval
  have hshape : profileGroups pts =
      [sortByDepth (pts.take profileSize),
        sortByDepth ((pts.drop profileSize).take profileSize),
        sortByDepth (((pts.drop profileSize).drop profileSize).take
          profileSize)] := by
    unfold profileGroups
    rw [hfilter, groupProfiles_step pts (by omega),
      groupProfiles_step (pts.drop profileSize)
        (by simp only [List.length_drop, profileSize]; omega),
      groupProfiles_step ((pts.drop profileSize).drop profileSize)
        (by simp only [List.length_drop, profileSize]; omega),
      show ((pts.drop profileSize).drop profileSize).drop profileSize =
          ([] : List TrajectoryPoint) from List.drop_eq_nil_of_le
        (by simp only [List.length_drop, profileSize]; omega),
      groupProfiles_nil]
  refine ⟨fun l g hg => groupProfiles_mem (l.filter isValidProfilePoint) g
    hg, ?_, ?_, ?_⟩
  · rw [hshape]
    rfl
  · rw [hshape]
    simp only [List.map_cons, List.map_nil, sortByDepth_length,
      List.length_take, List.length_drop, hlen, profileSize]
    norm_num
  · rw [hshape]
    intro g hg
    rcases List.mem_cons.mp hg with hg1 | hg'
    · rw [hg1]
      exact sortByDepth_sorted _
    rcases List.mem_cons.mp hg' with hg2 | hg''
    · rw [hg2]
      exact sortByDepth_sorted _
    rcases List.mem_cons.mp hg'' with hg3 | hg0
    · rw [hg3]
      exact sortByDepth_sorted _
    · simp at hg0

/-- Witness for C5: a concrete 12-point trajectory with valid depth and
temperature everywhere produces groups of sizes 5, 5 and 2. -/
theorem profile_grouping_witness :
    (profileGroups sampleTrajectory).map List.length = [5, 5, 2] := by
  have h := profile_grouping sampleTrajectory
    (by intro p hp
        simp only [sampleTrajectory, List.mem_map] at hp
        obtain ⟨k, _, hk⟩ := hp
        rw [← hk]
        rfl)
    (by rw [sampleTrajectory, List.length_map, List.length_range])
  exact h.2.2.1

/-! ### Store lemmas for the mutation claim -/

lemma readArr_allocArr_lt (h : Store) (c : List TrajectoryPoint) (j : ℕ)
    (hj : j < h.length) : readArr (allocArr h c).1 j = readArr h j := by
  unfold readArr allocArr
  exact List.getD_append h [c] [] j hj

lemma readArr_writeArr_ne (h : Store) (r j : ℕ) (c : List TrajectoryPoint)
    (hne : r ≠ j) : readArr (writeArr h r c) j = readArr h j := by
  unfold readArr writeArr
  rw [List.getD_eq_getElem?_getD, List.getD_eq_getElem?_getD,
    List.getElem?_set_ne hne]

lemma profileOverlayStep_preserves (h0 : Store) (validRef : ℕ)
    (acc : Store × List ℕ) (i : ℕ) (hlen : h0.length ≤ acc.1.length)
    (hread : ∀ j < h0.length, readArr acc.1 j = readArr h0 j) :
    h0.length ≤ (profileOverlayStep validRef acc i).1.length ∧
      ∀ j < h0.length,
        readArr (profileOverlayStep validRef acc i).1 j = readArr h0 j := by
  unfold profileOverlayStep
  dsimp only
  by_cases hc : 1 <
      (((readArr acc.1 validRef).drop i).take profileSize).length
  · rw [if_pos hc]
    dsimp only
    unfold allocArr
    constructor
    · rw [show ∀ (s : Store) (r : ℕ) (c : List TrajectoryPoint),
          (writeArr s r c).length = s.length from fun s r c =>
          List.length_set s r c]
      simp only [List.length_append, List.length_cons, List.length_nil]
      omega
    · intro j hj
      rw [readArr_writeArr_ne _ _ _ _ (by
        simp only [List.length_append] at *
        omega)]
      rw [show (acc.1 ++ [((readArr acc.1 validRef).drop i).take
          profileSize], acc.1.length).1 = (allocArr acc.1
          (((readArr acc.1 validRef).drop i).take profileSize)).1 from rfl]
      rw [readArr_allocArr_lt acc.1 _ j (by omega)]
      exact hread j hj
  · rw [if_neg hc]
    dsimp only
    constructor
    · unfold allocArr
      simp only [List.length_append, List.length_cons, List.length_nil]
      omega
    · intro j hj
      rw [readArr_allocArr_lt acc.1 _ j (by omega)]
      exact hread j hj

lemma foldl_profileOverlayStep_preserves (h0 : Store) (validRef : ℕ)
    (starts : List ℕ) :
    ∀ acc : Store × List ℕ, h0.length ≤ acc.1.length →
      (∀ j < h0.length, readArr acc.1 j = readArr h0 j) →
      h0.length ≤
          ((starts.foldl (profileOverlayStep validRef) acc).1).length ∧
        ∀ j < h0.length,
          readArr (starts.foldl (profileOverlayStep validRef) acc).1 j =
            readArr h0 j := by
  induction starts with
  | nil => exact fun acc h1 h2 => ⟨h1, h2⟩
  | cons s rest ih =>
    intro acc h1 h2
    rw [List.foldl_cons]
    have hstep := profileOverlayStep_preserves h0 validRef acc s h1 h2
    exact ih _ hstep.1 hstep.2

/-- C9: neither computation mutates its input.  In the store model, every
array that existed before the call — in particular the input trajectory
array — has unchanged contents after the profile grouping (whose in-place
sort only ever writes the freshly allocated window slices), and the drift
builder leaves the store untouched entirely. -/
theorem no_input_mutation (h0 : Store) (trajRef : ℕ) (j : ℕ)
    (hj : j < h0.length) :
    readArr (profileOverlayEffect h0 trajRef).1 j = readArr h0 j ∧
    (generateMockDriftDataEffect h0 trajRef).1 = h0 := by
  refine ⟨?_, rfl⟩
  unfold profileOverlayEffect
  dsimp only
  refine (foldl_profileOverlayStep_preserves h0 _ _ _ ?_ ?_).2 j hj
  · unfold allocArr
    simp only [List.length_append, List.length_cons, List.length_nil]
    omega
  · intro j' hj'
    exact readArr_allocArr_lt h0 _ j' hj'

/-- Witness for C9 at a concrete one-array store holding the two-point
equator trajectory. -/
theorem no_input_mutation_witness :
    readArr (profileOverlayEffect [[pointA, pointB]] 0).1 0 =
        readArr [[pointA, pointB]] 0 ∧
    (generateMockDriftDataEffect [[pointA, pointB]] 0).1 =
      [[pointA, pointB]] :=
  no_input_mutation [[pointA, pointB]] 0 0 (by simp)

/-- C10: the drift builder draws no randomness — its result is identical
under any two random streams (so two invocations on equal inputs agree
field for field) — unlike the sibling `generateMockPositioningData`,
whose output differs already on a one-point trajectory when the stream
changes. -/
theorem drift_deterministic (pts : List TrajectoryPoint) :
    (∀ rand1 rand2 : ℕ → ℝ,
      generateMockDriftDataR rand1 pts = generateMockDriftDataR rand2 pts) ∧
    generateMockPositioningData (fun _ => 0) [pointA] ≠
      generateMockPositioningData (fun _ => 1 / 2) [pointA] := by
  constructor
  · intro rand1 rand2
    rfl
  · intro hcontra
    have h1 := congrArg
      (fun l => (l.map PositioningData.horizontalAccuracy)) hcontra
    simp only [generateMockPositioningData, List.enum_cons,
      List.enumFrom, List.map_cons, List.map_nil] at h1
    norm_num at h1

/-- Witness for C10: the drift series of the two-point equator trajectory
is the same under two different random streams. -/
theorem drift_deterministic_witness :
    generateMockDriftDataR (fun _ => 0) [pointA, pointB] =
      generateMockDriftDataR (fun _ => 1 / 2) [pointA, pointB] :=
  (drift_deterministic [pointA, pointB]).1 (fun _ => 0) (fun _ => 1 / 2)

end OcenProto
